import Mathlib

/-!
Verification development for the BS-2 feature plugin system.

Shallow embedding of:
  - app/core/feature_manager.py (apply_defaults, apply_overrides, FeatureManager)
  - app/core/easy_options.py    (EasyOptions)
  - app/core/API.py             (API)
  - app/bridge.py               (_call_easy_option, _normalize_output, run_option)

Python dictionaries are modelled as association lists with string keys
(first-occurrence lookup; assignment replaces in place, insertion appends,
exactly like the insertion-ordered Python dict).  Python values that can
appear in feature configuration and feature outputs are modelled by `PyVal`.
Raised exceptions are modelled by `Except Exn`.
-/

set_option autoImplicit false

namespace BS2

/-- Python values relevant to the plugin system: JSON-style data plus an
opaque non-JSON-serializable object (`objV s` carries its `str()` rendering). -/
inductive PyVal where
  | noneV
  | boolV (b : Bool)
  | intV (n : Int)
  | strV (s : String)
  | listV (items : List PyVal)
  | dictV (entries : List (String × PyVal))
  | objV (s : String)

/-- Association-list lookup with Python dict semantics (string keys, first match). -/
def lookupD {α : Type} : List (String × α) → String → Option α
  | [], _ => none
  | (k, v) :: rest, key => if k = key then some v else lookupD rest key

/-- Python `d.setdefault(k, v)` restricted to its effect on the dict:
insert at the end when the key is absent, otherwise leave unchanged. -/
def setdefault {α : Type} (c : List (String × α)) (k : String) (v : α) : List (String × α) :=
  if (lookupD c k).isSome then c else c ++ [(k, v)]

/-- Python `d[k] = v`: replace in place when present, append when absent. -/
def dictAssign {α : Type} (d : List (String × α)) (k : String) (v : α) : List (String × α) :=
  if (lookupD d k).isSome then d.map (fun kv => if kv.1 = k then (k, v) else kv)
  else d ++ [(k, v)]

/-- `apply_defaults` from feature_manager.py: `config.setdefault(key, value)` for
each defaults entry, in order. -/
def apply_defaults {α : Type} (config defaults : List (String × α)) : List (String × α) :=
  defaults.foldl (fun c kv => setdefault c kv.1 kv.2) config

/-- `apply_overrides` from feature_manager.py: `if key in config: config[key] = value`
for each overrides entry, in order. -/
def apply_overrides {α : Type} (config overrides : List (String × α)) : List (String × α) :=
  overrides.foldl (fun c kv => if (lookupD c kv.1).isSome then dictAssign c kv.1 kv.2 else c) config

/-- Python truthiness (`if not x`) for the modelled values. -/
def truthy : PyVal → Bool
  | .noneV => false
  | .boolV b => b
  | .intV n => n != 0
  | .strV s => !s.isEmpty
  | .listV items => !items.isEmpty
  | .dictV entries => !entries.isEmpty
  | .objV _ => true

mutual
/-- JSON-serializability, as probed by `json.dumps` in `_safe_json`. -/
def jsonable : PyVal → Bool
  | .noneV => true
  | .boolV _ => true
  | .intV _ => true
  | .strV _ => true
  | .listV items => jsonableList items
  | .dictV entries => jsonableEntries entries
  | .objV _ => false
def jsonableList : List PyVal → Bool
  | [] => true
  | v :: rest => jsonable v && jsonableList rest
def jsonableEntries : List (String × PyVal) → Bool
  | [] => true
  | (_, v) :: rest => jsonable v && jsonableEntries rest
end

def squote : String := String.singleton (Char.ofNat 39)

def dquote : String := String.singleton (Char.ofNat 34)

/-- Drop the longest prefix of characters satisfying `p`. -/
def dropWhileList (p : Char → Bool) : List Char → List Char
  | [] => []
  | c :: rest => if p c then dropWhileList p rest else c :: rest

/-- Python `str.strip()`: remove leading and trailing whitespace. -/
def pyStrip (s : String) : String :=
  String.mk (List.reverse (dropWhileList (fun c => c.isWhitespace)
    (List.reverse (dropWhileList (fun c => c.isWhitespace) s.data))))

/-- List-level prefix test. -/
def isPrefixList : List Char → List Char → Bool
  | [], _ => true
  | _ :: _, [] => false
  | p :: ps, c :: cs => if p = c then isPrefixList ps cs else false

/-- Python `s.startswith(pat)`. -/
def pyStartsWith (s pat : String) : Bool :=
  isPrefixList pat.data s.data

/-- List-level substring occurrence test. -/
def containsList (pat : List Char) : List Char → Bool
  | [] => isPrefixList pat []
  | c :: rest => isPrefixList pat (c :: rest) || containsList pat rest

/-- Python substring membership `pat in s` for strings. -/
def containsSub (s pat : String) : Bool :=
  containsList pat.data s.data

/-- Whether a character occurs in a list. -/
def listHasChar (l : List Char) (c : Char) : Bool :=
  l.any (fun x => x = c)

/-- Python `repr` of a string: single quotes, switching to double quotes when
the string itself holds a single quote and no double quote. -/
def pyReprString (s : String) : String :=
  if listHasChar s.data (Char.ofNat 39) && !(listHasChar s.data (Char.ofNat 34)) then
    dquote ++ s ++ dquote
  else squote ++ s ++ squote

mutual
/-- Python `str()` of the modelled values (used for f-string interpolation
and for `_safe_json` stringification). -/
def pyStr : PyVal → String
  | .noneV => "None"
  | .boolV b => if b then "True" else "False"
  | .intV n => toString n
  | .strV s => s
  | .listV items => "[" ++ pyReprItems items ++ "]"
  | .dictV entries => "\x7b" ++ pyReprEntries entries ++ "\x7d"
  | .objV s => s
def pyRepr : PyVal → String
  | .noneV => "None"
  | .boolV b => if b then "True" else "False"
  | .intV n => toString n
  | .strV s => pyReprString s
  | .listV items => "[" ++ pyReprItems items ++ "]"
  | .dictV entries => "\x7b" ++ pyReprEntries entries ++ "\x7d"
  | .objV s => s
def pyReprItems : List PyVal → String
  | [] => ""
  | [v] => pyRepr v
  | v :: rest => pyRepr v ++ ", " ++ pyReprItems rest
def pyReprEntries : List (String × PyVal) → String
  | [] => ""
  | [(k, v)] => pyReprString k ++ ": " ++ pyRepr v
  | (k, v) :: rest => pyReprString k ++ ": " ++ pyRepr v ++ ", " ++ pyReprEntries rest
end

/-- `_safe_json` from bridge.py: return the value unchanged when it is
JSON-serializable, otherwise its `str()` rendering. -/
def safe_json (v : PyVal) : PyVal :=
  if jsonable v then v else .strV (pyStr v)

/-- Raised Python exceptions.  `keyError` is kept separate because the bridge
catches it specially; every other exception is `exn kind message`. -/
inductive Exn where
  | keyError (k : Option String)
  | exn (kind : String) (msg : String)

/-- The exception class name (`e.__class__.__name__`). -/
def Exn.kindName : Exn → String
  | .keyError _ => "KeyError"
  | .exn kind _ => kind

/-- Python `str(e)`: a `KeyError` renders the `repr` of its key, other
exceptions render their message. -/
def Exn.pyText : Exn → String
  | .keyError none => "None"
  | .keyError (some k) => pyReprString k
  | .exn _ msg => msg

/-- The parameters mapping passed to every feature action. -/
abbrev Params := List (String × PyVal)

/-- Outcome of calling one feature action on `params`: the returned value or
the raised exception, together with whatever the call printed on
stdout / stderr (as captured by `_capture_io`). -/
structure ActRes where
  result : Except Exn PyVal
  printedOut : String
  printedErr : String

/-- A feature action callable. -/
abbrev Act := Params → ActRes

/-- One entry of `EasyOptions.options`: the dict
`{"id": option_id, "label": option_label, "callable": option_callable}`. -/
structure OptionRec where
  id : String
  label : String
  callable : Act

/-- `EasyOptions` from easy_options.py. -/
structure EasyOptions where
  message : String
  feature_name : Option String
  options : List (String × OptionRec)

/-- `EasyOptions.__init__`. -/
def EasyOptions.init (message : String) : EasyOptions :=
  { message := message, feature_name := none, options := [] }

/-- `EasyOptions.add_option`: `self.options[option_id] = {...}`. -/
def EasyOptions.add_option (st : EasyOptions) (option_id option_label : String)
    (option_callable : Act) : EasyOptions :=
  let entry : OptionRec := { id := option_id, label := option_label, callable := option_callable }
  { st with options := dictAssign st.options option_id entry }

/-- `EasyOptions.set_feature_name`. -/
def EasyOptions.set_feature_name (st : EasyOptions) (name : String) : EasyOptions :=
  { st with feature_name := some name }

/-- `EasyOptions.get_option_callable`: `self.options[option_id]["callable"]`,
raising `KeyError(option_id)` when the id is absent. -/
def EasyOptions.get_option_callable (st : EasyOptions) (option_id : String) : Except Exn Act :=
  match lookupD st.options option_id with
  | some rec => .ok rec.callable
  | none => .error (.keyError (some option_id))

/-- Rendered button menu of `EasyOptions.render` (the jinja template expansion
is abstracted to a deterministic concatenation of its option buttons). -/
def renderMenu (st : EasyOptions) : String :=
  (if st.message.isEmpty then "" else "<h2>" ++ st.message ++ "</h2>") ++
    String.join (st.options.map (fun kv =>
      "<button onclick=" ++ dquote ++ "runFeature(" ++ squote ++
        (match st.feature_name with | some n => n | none => "") ++ squote ++ ", " ++ squote ++
        kv.2.id ++ squote ++ ")" ++ dquote ++ ">" ++ kv.2.label ++ "</button>"))

/-- `EasyOptions.render`: raises `ValueError` when no feature name was bound,
returns the no-options paragraph when the table is empty, else the menu. -/
def EasyOptions.render (st : EasyOptions) : Except Exn String :=
  if !(match st.feature_name with | some n => !n.isEmpty | none => false) then
    .error (.exn "ValueError" "Feature name not set for EasyOptions rendering.")
  else if st.options.isEmpty then .ok "<p>No options available.</p>"
  else .ok (renderMenu st)

/-- A feature instance (an object passing the `BaseFeature` isinstance check).
`run` is the contract-required action; `runDefault` models the optional
`run_default` attribute probed by `hasattr(inst, "run_default")` in the bridge. -/
structure Instance where
  run : Act
  runDefault : Option Act

/-- A value stored under the `easy_options` key of a registration record:
either a real `EasyOptions` instance, or (duck-typing gone wrong) any other
Python value, which the manager stores verbatim. -/
inductive EZVal where
  | easy (st : EasyOptions)
  | raw (v : PyVal)

/-- A value stored under the `shutdown` key of a registration record.
`callable tag` is a zero-argument teardown; running it is observed as the
event `tag`.  Non-callable values are skipped by the shutdown sweep. -/
inductive ShutVal where
  | callable (tag : String)
  | notCallable (v : PyVal)

/-- The manager's `loaded_features[name]` record. -/
structure LoadedFeature where
  inst : Instance
  easy_options : Option EZVal
  shutdown : Option ShutVal
  version : PyVal
  display_name : PyVal
  description : PyVal
  icon : PyVal

/-- `_call_easy_option` from bridge.py.  For an `EasyOptions` value the
`get_option_callable` branch applies; for a raw value neither
`get_option_callable` nor `call` exists, so the dict/`getattr` fallback ends
in `KeyError(f"Option '...' not found")` (`getattr` probing is modelled as
always missing; a raw dict of PyVal data is never callable).  On success the
captured stdout/stderr of the callable is returned; when the callable raises,
the buffers are discarded and the exception propagates. -/
def call_easy_option (ez : EZVal) (option : Option String) (params : Params) :
    Except Exn (PyVal × String × String) :=
  match ez with
  | .easy st =>
    match option with
    | some oid =>
      match EasyOptions.get_option_callable st oid with
      | .error e => .error e
      | .ok cb =>
        let r := cb params
        match r.result with
        | .error e => .error e
        | .ok out => .ok (out, r.printedOut, r.printedErr)
    | none => .error (.keyError none)
  | .raw v =>
    match v, option with
    | .dictV entries, some oid =>
      match lookupD entries oid with
      | some _ => .error (.exn "TypeError" "object is not callable")
      | none => .error (.keyError (some ("Option \x27" ++ oid ++ "\x27 not found")))
    | _, some oid => .error (.keyError (some ("Option \x27" ++ oid ++ "\x27 not found")))
    | _, none => .error (.keyError (some "Option \x27None\x27 not found"))

/-- The first stage of `_normalize_output`: build the initial payload from the
returned value.  `parse` stands for `json.loads` (the call is made on the
stripped string and only when it begins with a brace or bracket; `none`
models a parse failure / raised `json.JSONDecodeError`). -/
def initialPayload (parse : String → Option PyVal) (out : PyVal) : PyVal :=
  match out with
  | .dictV entries =>
    if (lookupD entries "ok").isSome || (lookupD entries "html").isSome
        || (lookupD entries "json").isSome then
      safe_json out
    else .dictV [("ok", .boolV true), ("json", safe_json out)]
  | .listV _ => .dictV [("ok", .boolV true), ("json", safe_json out)]
  | .strV s =>
    let t := pyStrip s
    if pyStartsWith t "\x7b" || pyStartsWith t "[" then
      match parse t with
      | some j =>
        match j with
        | .dictV je =>
          if (lookupD je "ok").isSome || (lookupD je "html").isSome
              || (lookupD je "json").isSome then j
          else .dictV [("ok", .boolV true), ("json", j)]
        | _ => .dictV [("ok", .boolV true), ("json", j)]
      | none => .dictV [("ok", .boolV true), ("result", out)]
    else if pyStartsWith t "<" then .dictV [("ok", .boolV true), ("html", out)]
    else .dictV [("ok", .boolV true), ("result", out)]
  | _ => .dictV [("ok", .boolV true), ("result", safe_json out)]

/-- `payload.setdefault("_prints", {})[key] = text`.  On a non-dict payload
`setdefault` does not exist (`AttributeError`); when an existing `_prints`
value is not a dict, the item assignment on it raises `TypeError`. -/
def setdefaultPrints (payload : PyVal) (key : String) (text : String) : Except Exn PyVal :=
  match payload with
  | .dictV entries =>
    match lookupD entries "_prints" with
    | some (.dictV pe) =>
      .ok (.dictV (dictAssign entries "_prints" (.dictV (dictAssign pe key (.strV text)))))
    | some _ => .error (.exn "TypeError" "item assignment on non-dict _prints value")
    | none => .ok (.dictV (dictAssign entries "_prints" (.dictV [(key, .strV text)])))
  | _ => .error (.exn "AttributeError" "object has no attribute setdefault")

/-- The final `if "ok" not in payload: payload["ok"] = True`.  On a string
payload `in` is a substring test and the item assignment raises `TypeError`;
on other non-dict payloads `in` itself raises `TypeError`. -/
def finalizeOk (payload : PyVal) : Except Exn PyVal :=
  match payload with
  | .dictV entries =>
    if (lookupD entries "ok").isSome then .ok payload
    else .ok (.dictV (dictAssign entries "ok" (.boolV true)))
  | .strV s =>
    if containsSub s "ok" then .ok payload
    else .error (.exn "TypeError" "str object does not support item assignment")
  | .listV items =>
    if items.any (fun v => match v with | .strV s => s = "ok" | _ => false) then .ok payload
    else .error (.exn "TypeError" "list indices must be integers")
  | _ => .error (.exn "TypeError" "argument is not iterable")

/-- The tail of `_normalize_output`: `_prints` attachment for non-empty
captured streams, then the final `ok` default. -/
def attachAndFinalize (payload : PyVal) (captured_out captured_err : String) :
    Except Exn (Int × PyVal) :=
  match (if captured_out ≠ "" then setdefaultPrints payload "stdout" captured_out
    else .ok payload) with
  | .error e => .error e
  | .ok payload1 =>
    match (if captured_err ≠ "" then setdefaultPrints payload1 "stderr" captured_err
      else .ok payload1) with
    | .error e => .error e
    | .ok payload2 =>
      match finalizeOk payload2 with
      | .error e => .error e
      | .ok payload3 => .ok (0, payload3)

/-- `_normalize_output` from bridge.py. -/
def normalize_output (parse : String → Option PyVal) (out : PyVal)
    (captured_out captured_err : String) : Except Exn (Int × PyVal) :=
  attachAndFinalize (initialPayload parse out) captured_out captured_err

/-- The `{"ok": False, "error": ...}` envelope. -/
def errEnvelope (msg : String) : PyVal :=
  .dictV [("ok", .boolV false), ("error", .strV msg)]

/-- `run_option` from bridge.py.  The feature bag is the manager's
`features` dict (as found by `_discover_feature_bag`).  A raise inside the
`try` block (option resolution, the option callable, or normalization) is
converted to an envelope; a raise in the `run_default` fallback path is not
guarded and propagates. -/
def run_option (bag : List (String × LoadedFeature)) (feature : String)
    (option : Option String) (params : Params) (parse : String → Option PyVal) :
    Except Exn (Int × PyVal) :=
  match lookupD bag feature with
  | none => .ok (1, errEnvelope ("Unknown feature \x27" ++ feature ++ "\x27"))
  | some rec =>
    match rec.easy_options with
    | none =>
      match rec.inst.runDefault with
      | some rd =>
        if option = none ∨ option = some "" ∨ option = some "default"
            ∨ option = some "run_default" ∨ option = some "run" then
          let r := rd params
          match r.result with
          | .ok out => normalize_output parse out r.printedOut r.printedErr
          | .error e => .error e
        else .ok (1, errEnvelope ("Feature \x27" ++ feature ++ "\x27 has no easy options"))
      | none => .ok (1, errEnvelope ("Feature \x27" ++ feature ++ "\x27 has no easy options"))
    | some ez =>
      let attempt : Except Exn (Int × PyVal) :=
        match call_easy_option ez option params with
        | .error e => .error e
        | .ok (out, pout, perr) => normalize_output parse out pout perr
      match attempt with
      | .ok r => .ok r
      | .error (.keyError k) => .ok (1, errEnvelope (Exn.pyText (.keyError k)))
      | .error e =>
        .ok (1, errEnvelope ("Option raised: " ++ e.kindName ++ ": " ++ e.pyText))

/-- A value found under the `instance` key of a registration record: either a
genuine `BaseFeature` instance or some other value (failing the isinstance
check). -/
inductive InstVal where
  | base (i : Instance)
  | notBase (v : PyVal)

/-- A value found under the `self_test` key: a zero-argument callable whose
invocation returns a value or raises, or a non-callable value (treated as no
self-test). -/
inductive SelfTestVal where
  | callable (res : Except Exn PyVal)
  | notCallable (v : PyVal)

/-- The dict returned by a feature module's `register()`, with each optional
key looked up via `.get` (absent keys modelled as `none`). -/
structure RegRecord where
  inst : Option InstVal
  self_test : Option SelfTestVal
  easy_options : Option EZVal
  shutdown : Option ShutVal

/-- What `register()` does when called. -/
inductive RegResult where
  | raises (e : Exn)
  | notDict (v : PyVal)
  | record (r : RegRecord)

/-- The import environment: what `importlib.import_module(module_path)`
resolves a module path to. -/
inductive ModuleBehavior where
  | notFound
  | noRegister
  | hasRegister (res : RegResult)

/-- Per-feature outcome of one iteration of the `load_features` loop, before
the counters are updated: the feature is disabled, failed, or loaded with the
record that gets stored. -/
inductive FOutcome where
  | disabledO
  | failedO
  | loadedO (rec : LoadedFeature)

/-- The `easy_options` binding step of `load_features`: a `BaseEasyOptions`
instance gets the feature name bound via `set_feature_name`; any other value
(including a non-conforming one) is kept verbatim. -/
def bindEasyOptions (name : String) (ez : Option EZVal) : Option EZVal :=
  match ez with
  | some (.easy st) => some (.easy (EasyOptions.set_feature_name st name))
  | other => other

/-- One iteration of the `load_features` loop for one feature definition
(feature name and overrides), without the counter bookkeeping.  It follows
feature_manager.py line by line: effective config merge, the six config key
reads (a missing key raises `KeyError`), the enabled check, module import,
`register()` presence / invocation / validation, the `BaseFeature` isinstance
check, the self-test (whose raise is NOT caught and so propagates), and the
easy-options binding. -/
def featureOutcome (defaults : Params) (env : String → ModuleBehavior)
    (fd : String × Params) : Except Exn FOutcome :=
  let feature_name := fd.1
  let feature_config := apply_overrides (apply_defaults [] defaults) fd.2
  match lookupD feature_config "enabled" with
  | none => .error (.keyError (some "enabled"))
  | some feature_enabled =>
  match lookupD feature_config "cached" with
  | none => .error (.keyError (some "cached"))
  | some _feature_cached =>
  match lookupD feature_config "display_name" with
  | none => .error (.keyError (some "display_name"))
  | some feature_display_name =>
  match lookupD feature_config "version" with
  | none => .error (.keyError (some "version"))
  | some feature_version =>
  match lookupD feature_config "description" with
  | none => .error (.keyError (some "description"))
  | some feature_description =>
  match lookupD feature_config "icon" with
  | none => .error (.keyError (some "icon"))
  | some feature_icon =>
  let module_path := "features." ++ feature_name ++ "." ++ pyStr feature_version
    ++ "." ++ feature_name
  if truthy feature_enabled = false then .ok .disabledO
  else
    match env module_path with
    | .notFound => .ok .failedO
    | .noRegister => .ok .failedO
    | .hasRegister (.raises _) => .ok .failedO
    | .hasRegister (.notDict _) => .ok .failedO
    | .hasRegister (.record r) =>
      match r.inst with
      | some (.base inst) =>
        let store : FOutcome := .loadedO
          { inst := inst
            easy_options := bindEasyOptions feature_name r.easy_options
            shutdown := r.shutdown
            version := feature_version
            display_name := feature_display_name
            description := feature_description
            icon := feature_icon }
        match r.self_test with
        | some (.callable res) =>
          match res with
          | .error e => .error e
          | .ok v => if truthy v then .ok store else .ok .failedO
        | _ => .ok store
      | _ => .ok .failedO

/-- The four load-phase aggregates: the `loaded_features` dict and the
scanned / failed / disabled counters printed at the end of `load_features`. -/
structure LoadResult where
  loaded : List (String × LoadedFeature)
  failures : Nat
  scanned : Nat
  disabled : Nat

/-- One loop iteration of `load_features` including counter bookkeeping:
`scanned += 1` always, then exactly one of `disabled += 1`, `failures += 1`,
or `loaded_features[feature_name] = {...}`. -/
def loadStep (defaults : Params) (env : String → ModuleBehavior)
    (acc : LoadResult) (fd : String × Params) : Except Exn LoadResult :=
  match featureOutcome defaults env fd with
  | .error e => .error e
  | .ok .disabledO => .ok { acc with scanned := acc.scanned + 1, disabled := acc.disabled + 1 }
  | .ok .failedO => .ok { acc with scanned := acc.scanned + 1, failures := acc.failures + 1 }
  | .ok (.loadedO rec) =>
    .ok { acc with scanned := acc.scanned + 1, loaded := dictAssign acc.loaded fd.1 rec }

/-- The `load_features` loop over the feature definitions, in definition
order; an uncaught exception aborts the whole phase. -/
def loadAux (defaults : Params) (env : String → ModuleBehavior) :
    List (String × Params) → LoadResult → Except Exn LoadResult
  | [], acc => .ok acc
  | fd :: rest, acc =>
    match loadStep defaults env acc fd with
    | .error e => .error e
    | .ok acc' => loadAux defaults env rest acc'

/-- `FeatureManager.load_features`. -/
def load_features (defaults : Params) (env : String → ModuleBehavior)
    (feature_definitions : List (String × Params)) : Except Exn LoadResult :=
  loadAux defaults env feature_definitions { loaded := [], failures := 0, scanned := 0, disabled := 0 }

/-- `FeatureManager` state after construction. -/
structure FeatureManager where
  debug : Bool
  features : List (String × LoadedFeature)

/-- `FeatureManager.__init__`: run the load phase (which can raise) and keep
the loaded-feature table. -/
def FeatureManager.init (defaults : Params) (env : String → ModuleBehavior)
    (feature_definitions : List (String × Params)) (debug : Bool) :
    Except Exn FeatureManager :=
  match load_features defaults env feature_definitions with
  | .error e => .error e
  | .ok r => .ok { debug := debug, features := r.loaded }

/-- `FeatureManager.get_available_features`: id to `{version, display_name}`
over the loaded table. -/
def get_available_features (fm : FeatureManager) : List (String × (PyVal × PyVal)) :=
  fm.features.map (fun nf => (nf.1, (nf.2.version, nf.2.display_name)))

/-- `FeatureManager.shutdown`: sweep the loaded features in load order and run
each callable `shutdown` value; returns the teardown events in execution
order.  The manager state is not changed and nothing guards re-entry. -/
def FeatureManager.shutdownSweep (fm : FeatureManager) : List String :=
  fm.features.filterMap (fun nf =>
    match nf.2.shutdown with
    | some (.callable tag) => some tag
    | _ => none)

/-- `FeatureManager.invoke_feature`: inject the debug flag into `params`,
resolve the feature (raising `Exception` when unknown), then dispatch through
the stored `easy_options` value when it is not `None` (via
`get_option_callable` for a supplied option id, `render()` otherwise; a
non-`EasyOptions` stored value has neither attribute, so `AttributeError` is
raised), and otherwise call the instance's `run`. -/
def invoke_feature (fm : FeatureManager) (feature_name : String)
    (option_id : Option String) (params : Params) : Except Exn PyVal :=
  let params := dictAssign params "debug" (.boolV fm.debug)
  match lookupD fm.features feature_name with
  | none => .error (.exn "Exception" ("Feature \x27" ++ feature_name ++ "\x27 not found"))
  | some f =>
    match f.easy_options with
    | none => (f.inst.run params).result
    | some ez =>
      match option_id with
      | some oid =>
        match ez with
        | .easy st =>
          match EasyOptions.get_option_callable st oid with
          | .ok cb => (cb params).result
          | .error e => .error e
        | .raw _ => .error (.exn "AttributeError" "object has no attribute get_option_callable")
      | none =>
        match ez with
        | .easy st =>
          match EasyOptions.render st with
          | .ok html => .ok (.strV html)
          | .error e => .error e
        | .raw _ => .error (.exn "AttributeError" "object has no attribute render")

/-- `API` from app/core/API.py.  `shutdown_handled` is the `_shutdown_handled`
flag set in `__init__`; no method of the class ever reads or updates it. -/
structure API where
  feature_reload : Bool
  feature_manager : FeatureManager
  file_path : Option String
  last_used_feature : Option String
  supported_files : List String
  shutdown_handled : Bool

/-- `API.__init__`. -/
def API.init (feature_manager : FeatureManager) (supported_files : List String)
    (feature_reload_on_file_change : Bool) : API :=
  { feature_reload := feature_reload_on_file_change
    feature_manager := feature_manager
    file_path := none
    last_used_feature := none
    supported_files := supported_files
    shutdown_handled := false }

/-- `API.shutdown`: delegates to the manager's shutdown sweep unconditionally;
the API state (including `shutdown_handled`) is returned unchanged because
the method touches none of it. -/
def API.shutdown (a : API) : List String × API :=
  (a.feature_manager.shutdownSweep, a)

/-- `DEFAULTS` from app/core/defaults.py. -/
def DEFAULTS : Params :=
  [("enabled", .boolV true), ("cached", .boolV false), ("display_name", .strV ""),
   ("version", .strV "v1_0"), ("description", .strV ""), ("icon", .strV "🧩")]

/-! Helper predicates used to state the claims. -/

/-- The envelope mapping contains the key `ok` with a boolean value. -/
def okIsBool : PyVal → Bool
  | .dictV entries =>
    match lookupD entries "ok" with
    | some (.boolV _) => true
    | _ => false
  | _ => false

/-- A pre-existing `_prints` entry is absent or is itself a dict, so the
prints attachment of `_normalize_output` cannot raise on it. -/
def printsOkB (entries : List (String × PyVal)) : Bool :=
  match lookupD entries "_prints" with
  | none => true
  | some (.dictV _) => true
  | some _ => false

/-- The `ok` entry of a payload mapping is absent or boolean. -/
def okFieldOk (entries : List (String × PyVal)) : Bool :=
  match lookupD entries "ok" with
  | none => true
  | some (.boolV _) => true
  | some _ => false

/-- Shape condition on a returned mapping, per the claim: no `ok` key, and
when it passes through unchanged (it holds an `html` or `json` key) it is
JSON-serializable with a well-shaped `_prints` entry. -/
def dictPassOk (entries : List (String × PyVal)) : Bool :=
  (lookupD entries "ok").isNone &&
    (!((lookupD entries "html").isSome || (lookupD entries "json").isSome)
      || (jsonableEntries entries && printsOkB entries))

/-- Shape condition on the parse of a returned JSON string: an `ok` key, if
present, is boolean, and a passed-through mapping has a well-shaped
`_prints` entry. -/
def parsedPassOk (je : List (String × PyVal)) : Bool :=
  match lookupD je "ok" with
  | some (.boolV _) => printsOkB je
  | none =>
    !((lookupD je "html").isSome || (lookupD je "json").isSome) || printsOkB je
  | some _ => false

/-- One `add_option(option_id, label, callable)` call. -/
structure AddCall where
  id : String
  label : String
  cb : Act

/-- Replay a sequence of `add_option` calls on a registry. -/
def applyCalls (st : EasyOptions) (cs : List AddCall) : EasyOptions :=
  cs.foldl (fun s c => EasyOptions.add_option s c.id c.label c.cb) st

/-! Concrete features, environments and definitions used by the
counterexamples and witnesses. -/

/-- An action returning the string `s`, printing nothing. -/
def actOkStr (s : String) : Act :=
  fun _ => { result := .ok (.strV s), printedOut := "", printedErr := "" }

/-- An action raising `<kind>(<msg>)`, printing nothing. -/
def actRaise (kind msg : String) : Act :=
  fun _ => { result := .error (.exn kind msg), printedOut := "", printedErr := "" }

/-- A well-behaved feature instance with a default action. -/
def instOk : Instance :=
  { run := actOkStr "<p>ran</p>", runDefault := some (actOkStr "<h2>ok</h2>") }

/-- A feature instance whose default action raises `ValueError("bad input")`. -/
def instRaise : Instance :=
  { run := actOkStr "<p>ran</p>", runDefault := some (actRaise "ValueError" "bad input") }

/-- An option registry with one option `go` whose callable raises
`ValueError("bad input")`. -/
def ezGo : EasyOptions :=
  { message := ""
    feature_name := some "alpha"
    options := [("go", { id := "go", label := "Go", callable := actRaise "ValueError" "bad input" })] }

/-- A loaded feature exposing `ezGo` as its option registry. -/
def recEzRaise : LoadedFeature :=
  { inst := instOk, easy_options := some (.easy ezGo), shutdown := none,
    version := .strV "v1_0", display_name := .strV "Alpha", description := .strV "",
    icon := .strV "" }

/-- An action raising `KeyError(<k>)`, printing nothing. -/
def actRaiseKey (k : String) : Act :=
  fun _ => { result := .error (.keyError (some k)), printedOut := "", printedErr := "" }

/-- An option registry with one option `go` whose callable raises
`KeyError("boom")`. -/
def ezKey : EasyOptions :=
  { message := ""
    feature_name := some "alpha"
    options := [("go", { id := "go", label := "Go", callable := actRaiseKey "boom" })] }

/-- A loaded feature exposing `ezKey` as its option registry. -/
def recEzKeyRaise : LoadedFeature :=
  { inst := instOk, easy_options := some (.easy ezKey), shutdown := none,
    version := .strV "v1_0", display_name := .strV "Alpha", description := .strV "",
    icon := .strV "" }

/-- The error string `run_option` reports when the guarded block raises `e`:
the `except KeyError` handler at bridge.py:245-246 renders `str(e)` (the
`repr` of the key) with no prefix, while the generic handler at line 248
prefixes `"Option raised: <kind>: <message>"`. -/
def optionRaiseMsg : Exn → String
  | .keyError k => Exn.pyText (.keyError k)
  | .exn kind msg => "Option raised: " ++ kind ++ ": " ++ msg

/-- A loaded feature with no option registry whose default action raises. -/
def recNoEzRaise : LoadedFeature :=
  { inst := instRaise, easy_options := none, shutdown := none,
    version := .strV "v1_0", display_name := .strV "Alpha", description := .strV "",
    icon := .strV "" }

/-- A loaded feature with no option registry and a well-behaved default
action. -/
def recNoEzOk : LoadedFeature :=
  { inst := instOk, easy_options := none, shutdown := none,
    version := .strV "v1_0", display_name := .strV "Alpha", description := .strV "",
    icon := .strV "" }

/-- A parse oracle on which `json.loads` always fails. -/
def parseNone : String → Option PyVal := fun _ => none

/-- The JSON text `{"ok": 0}`. -/
def jsonOkZero : String := "\x7b" ++ dquote ++ "ok" ++ dquote ++ ": 0\x7d"

/-- The behaviour of `json.loads` on the text `{"ok": 0}` (and parse failure
elsewhere): the parsed mapping binds `ok` to the number `0`, not a boolean. -/
def parseOkZero : String → Option PyVal :=
  fun s => if s = jsonOkZero then some (.dictV [("ok", .intV 0)]) else none

/-- A registration record that passes every load-phase check. -/
def goodRecord : RegRecord :=
  { inst := some (.base instOk), self_test := none, easy_options := none, shutdown := none }

/-- A registration record whose self-test raises when invoked. -/
def selfTestRaiseRecord : RegRecord :=
  { inst := some (.base instOk),
    self_test := some (.callable (.error (.exn "RuntimeError" "self-test blew up"))),
    easy_options := none, shutdown := none }

/-- A registration record whose `easy_options` value is a plain string,
which is not a `BaseEasyOptions` instance. -/
def rawEzRecord : RegRecord :=
  { inst := some (.base instOk), self_test := none,
    easy_options := some (.raw (.strV "bogus")), shutdown := none }

/-- Import environment where feature `beta` has a raising self-test and
every other module loads cleanly. -/
def envSelfTestRaise : String → ModuleBehavior :=
  fun path =>
    if path = "features.beta.v1_0.beta" then .hasRegister (.record selfTestRaiseRecord)
    else .hasRegister (.record goodRecord)

/-- Import environment where feature `beta`'s module is missing and every
other module loads cleanly. -/
def envBetaMissing : String → ModuleBehavior :=
  fun path =>
    if path = "features.beta.v1_0.beta" then .notFound
    else .hasRegister (.record goodRecord)

/-- Import environment where every module loads cleanly. -/
def envAllGood : String → ModuleBehavior :=
  fun _ => .hasRegister (.record goodRecord)

/-- Import environment where no module can be found. -/
def envAllMissing : String → ModuleBehavior :=
  fun _ => .notFound

/-- Import environment where every module registers a non-conforming
`easy_options` value. -/
def envRawEz : String → ModuleBehavior :=
  fun _ => .hasRegister (.record rawEzRecord)

/-- Three feature definitions with no overrides. -/
def defsABC : List (String × Params) :=
  [("alpha", []), ("beta", []), ("gamma", [])]

/-- The loaded-feature record produced for a definition with no overrides by
`goodRecord` under `DEFAULTS`. -/
def recGoodLoaded : LoadedFeature :=
  { inst := instOk, easy_options := none, shutdown := none,
    version := .strV "v1_0", display_name := .strV "", description := .strV "",
    icon := .strV "🧩" }

/-- The loaded-feature record produced by `rawEzRecord` under `DEFAULTS`:
the non-conforming `easy_options` value is stored verbatim. -/
def recRawEzLoaded : LoadedFeature :=
  { inst := instOk, easy_options := some (.raw (.strV "bogus")), shutdown := none,
    version := .strV "v1_0", display_name := .strV "", description := .strV "",
    icon := .strV "🧩" }

/-- A manager holding the feature loaded through `envRawEz`. -/
def fmRawEz : FeatureManager :=
  { debug := false, features := [("alpha", recRawEzLoaded)] }

/-- A loaded feature with a callable teardown, observed as `alpha-teardown`. -/
def recShut : LoadedFeature :=
  { inst := instOk, easy_options := none, shutdown := some (.callable "alpha-teardown"),
    version := .strV "v1_0", display_name := .strV "Alpha", description := .strV "",
    icon := .strV "" }

/-- A manager holding one feature with a teardown callable. -/
def fmShut : FeatureManager :=
  { debug := false, features := [("alpha", recShut)] }

/-- The API wrapper around `fmShut`, as built by `API.__init__`. -/
def apiShut : API := API.init fmShut [] true

/-- Feature definitions for the counter witness: `a` disabled by override,
`b` enabled but with a missing module. -/
def defsCounters : List (String × Params) :=
  [("a", [("enabled", .boolV false)]), ("b", [])]

/-- Feature definitions with `alpha` disabled by override and `beta` plain. -/
def defsDisabledAlpha : List (String × Params) :=
  [("alpha", [("enabled", .boolV false)]), ("beta", [])]

/-- The load result for `defsDisabledAlpha` under `DEFAULTS` / `envAllGood`. -/
def rDisabledAlpha : LoadResult :=
  { loaded := [("beta", recGoodLoaded)], failures := 0, scanned := 2, disabled := 1 }

/-- The override map of the configuration-merge witness: one recognized key
and one unknown key. -/
def OW : Params := [("version", .strV "v2_0"), ("extra", .strV "x")]

/-! Association-list lemmas. -/

@[simp]
theorem lookupD_nil {α : Type} (k : String) : lookupD ([] : List (String × α)) k = none := rfl

@[simp]
theorem lookupD_cons {α : Type} (k1 : String) (v1 : α) (tl : List (String × α)) (k : String) :
    lookupD ((k1, v1) :: tl) k = if k1 = k then some v1 else lookupD tl k := rfl

theorem lookupD_append {α : Type} (l1 l2 : List (String × α)) (k : String) :
    lookupD (l1 ++ l2) k = (lookupD l1 k).orElse (fun _ => lookupD l2 k) := by
  induction l1 with
  | nil => simp
  | cons hd tl ih =>
    obtain ⟨k1, v1⟩ := hd
    by_cases h : k1 = k <;> simp [h, ih]

theorem lookupD_map_replace {α : Type} (d : List (String × α)) (k : String) (v : α)
    (k' : String) :
    lookupD (d.map (fun kv => if kv.1 = k then (k, v) else kv)) k' =
      if k' = k then (lookupD d k).map (fun _ => v) else lookupD d k' := by
  induction d with
  | nil => by_cases h : k' = k <;> simp [h]
  | cons hd tl ih =>
    obtain ⟨k1, v1⟩ := hd
    have hmap : List.map (fun kv => if kv.1 = k then (k, v) else kv) ((k1, v1) :: tl)
        = (if k1 = k then (k, v) else (k1, v1))
          :: List.map (fun kv => if kv.1 = k then (k, v) else kv) tl := rfl
    rw [hmap]
    by_cases h1 : k1 = k
    · subst h1
      by_cases h2 : k1 = k'
      · subst h2; simp
      · have h2' : ¬k' = k1 := fun hh => h2 hh.symm
        simp [h2, h2', ih]
    · have h1' : ¬k = k1 := fun hh => h1 hh.symm
      by_cases h2 : k1 = k'
      · subst h2
        simp [h1, h1']
      · have h2' : ¬k' = k1 := fun hh => h2 hh.symm
        by_cases h3 : k' = k
        · subst h3
          simp [h1, h1', h2, h2', ih]
        · have h3' : ¬k = k' := fun hh => h3 hh.symm
          simp [h1, h1', h2, h2', h3, h3', ih]

theorem lookupD_dictAssign {α : Type} (d : List (String × α)) (k : String) (v : α)
    (k' : String) :
    lookupD (dictAssign d k v) k' = if k' = k then some v else lookupD d k' := by
  unfold dictAssign
  by_cases hp : (lookupD d k).isSome
  · rw [if_pos hp, lookupD_map_replace]
    by_cases h : k' = k
    · subst h
      obtain ⟨w, hw⟩ := Option.isSome_iff_exists.mp hp
      simp [hw]
    · simp [h]
  · rw [if_neg hp, lookupD_append]
    by_cases h : k' = k
    · subst h
      rw [Option.not_isSome_iff_eq_none] at hp
      simp [hp]
    · rw [if_neg h]
      rcases he : lookupD d k' with _ | w <;>
        simp [he, if_neg (fun hh : k = k' => h hh.symm)]

theorem lookupD_eq_none_of_not_mem {α : Type} (d : List (String × α)) (k : String)
    (h : k ∉ d.map Prod.fst) : lookupD d k = none := by
  induction d with
  | nil => rfl
  | cons hd tl ih =>
    obtain ⟨k1, v1⟩ := hd
    simp only [List.map_cons, List.mem_cons] at h
    push_neg at h
    rw [lookupD_cons, if_neg (fun hh => h.1 hh.symm), ih h.2]

theorem lookupD_setdefault {α : Type} (c : List (String × α)) (k1 : String) (v1 : α)
    (k : String) :
    lookupD (setdefault c k1 v1) k =
      (lookupD c k).orElse (fun _ => if k1 = k then some v1 else none) := by
  unfold setdefault
  by_cases hp : (lookupD c k1).isSome
  · rw [if_pos hp]
    by_cases h : k1 = k
    · subst h
      obtain ⟨w, hw⟩ := Option.isSome_iff_exists.mp hp
      simp [hw]
    · rcases he : lookupD c k with _ | w <;> simp [he, h]
  · rw [if_neg hp, lookupD_append]
    rcases he : lookupD c k with _ | w <;> simp [he]

theorem lookupD_apply_defaults {α : Type} (defaults : List (String × α))
    (config : List (String × α)) (k : String) :
    lookupD (apply_defaults config defaults) k =
      (lookupD config k).orElse (fun _ => lookupD defaults k) := by
  induction defaults generalizing config with
  | nil => simp [apply_defaults]
  | cons hd tl ih =>
    obtain ⟨k1, v1⟩ := hd
    show lookupD (apply_defaults (setdefault config k1 v1) tl) k = _
    rw [ih, lookupD_setdefault]
    rcases he : lookupD config k with _ | w
    · by_cases h : k1 = k
      · simp [h]
      · simp [h, if_neg (fun hh : k1 = k => h hh)]
    · simp

theorem apply_overrides_presence {α : Type} (overrides config : List (String × α))
    (k : String) :
    (lookupD (apply_overrides config overrides) k).isSome = (lookupD config k).isSome := by
  induction overrides generalizing config with
  | nil => rfl
  | cons hd tl ih =>
    obtain ⟨k1, v1⟩ := hd
    show (lookupD (apply_overrides (if (lookupD config k1).isSome then
      dictAssign config k1 v1 else config) tl) k).isSome = _
    rw [ih]
    by_cases hp : (lookupD config k1).isSome
    · rw [if_pos hp, lookupD_dictAssign]
      by_cases h : k = k1
      · subst h; simp [hp]
      · simp [h]
    · rw [if_neg hp]

theorem lookupD_apply_overrides {α : Type} (overrides config : List (String × α))
    (k : String) (hO : (overrides.map Prod.fst).Nodup) :
    lookupD (apply_overrides config overrides) k =
      if (lookupD config k).isSome then
        (lookupD overrides k).orElse (fun _ => lookupD config k)
      else lookupD config k := by
  induction overrides generalizing config with
  | nil => by_cases hp : (lookupD config k).isSome <;> simp [apply_overrides, hp]
  | cons hd tl ih =>
    obtain ⟨k1, v1⟩ := hd
    simp only [List.map_cons, List.nodup_cons] at hO
    show lookupD (apply_overrides (if (lookupD config k1).isSome then
      dictAssign config k1 v1 else config) tl) k = _
    rw [ih _ hO.2]
    by_cases hk : k = k1
    · have htl : lookupD tl k1 = none :=
        lookupD_eq_none_of_not_mem tl k1 hO.1
      by_cases hp : (lookupD config k).isSome <;>
        simp_all [lookupD_dictAssign]
    · have hhd : lookupD ((k1, v1) :: tl) k = lookupD tl k := by
        rw [lookupD_cons, if_neg (fun hh => hk hh.symm)]
      by_cases hp : (lookupD config k1).isSome
      · rw [if_pos hp]
        have hda : lookupD (dictAssign config k1 v1) k = lookupD config k := by
          rw [lookupD_dictAssign, if_neg hk]
        rw [hda, hhd]
      · rw [if_neg hp, hhd]

theorem dictAssign_length {α : Type} (d : List (String × α)) (k : String) (v : α) :
    (dictAssign d k v).length =
      if (lookupD d k).isSome then d.length else d.length + 1 := by
  unfold dictAssign
  by_cases hp : (lookupD d k).isSome <;> simp [hp]

theorem find?_append {α : Type} (l1 l2 : List α) (p : α → Bool) :
    List.find? p (l1 ++ l2) = (List.find? p l1).orElse (fun _ => List.find? p l2) := by
  induction l1 with
  | nil => simp
  | cons hd tl ih =>
    by_cases h : p hd <;> simp [List.find?, h, ih]

/-! Normalization lemmas. -/

theorem setdefaultPrints_dict (entries : List (String × PyVal)) (key text : String)
    (hpr : printsOkB entries = true) :
    ∃ es, setdefaultPrints (.dictV entries) key text = .ok (.dictV es) ∧
      lookupD es "ok" = lookupD entries "ok" ∧ printsOkB es = true := by
  unfold printsOkB at hpr
  simp only [setdefaultPrints]
  cases hp : lookupD entries "_prints" with
  | none =>
    refine ⟨dictAssign entries "_prints" (.dictV [(key, .strV text)]), rfl, ?_, ?_⟩
    · rw [lookupD_dictAssign, if_neg (by decide)]
    · unfold printsOkB
      rw [lookupD_dictAssign, if_pos rfl]
  | some p =>
    rw [hp] at hpr
    cases p with
    | dictV pe =>
      refine ⟨dictAssign entries "_prints" (.dictV (dictAssign pe key (.strV text))),
        rfl, ?_, ?_⟩
      · rw [lookupD_dictAssign, if_neg (by decide)]
      · unfold printsOkB
        rw [lookupD_dictAssign, if_pos rfl]
    | noneV => exact absurd hpr (by simp)
    | boolV b => exact absurd hpr (by simp)
    | intV n => exact absurd hpr (by simp)
    | strV s => exact absurd hpr (by simp)
    | listV l => exact absurd hpr (by simp)
    | objV s => exact absurd hpr (by simp)

theorem finalizeOk_dict (es : List (String × PyVal)) (hok : okFieldOk es = true) :
    ∃ p, finalizeOk (.dictV es) = .ok p ∧ okIsBool p = true := by
  unfold okFieldOk at hok
  simp only [finalizeOk]
  cases ho : lookupD es "ok" with
  | none =>
    refine ⟨.dictV (dictAssign es "ok" (.boolV true)), rfl, ?_⟩
    simp only [okIsBool]
    rw [lookupD_dictAssign, if_pos rfl]
  | some v =>
    rw [ho] at hok
    cases v with
    | boolV b =>
      refine ⟨.dictV es, rfl, ?_⟩
      simp only [okIsBool]
      rw [ho]
    | noneV => exact absurd hok (by simp)
    | intV n => exact absurd hok (by simp)
    | strV s => exact absurd hok (by simp)
    | listV l => exact absurd hok (by simp)
    | dictV d => exact absurd hok (by simp)
    | objV s => exact absurd hok (by simp)

theorem attachAndFinalize_dict (entries : List (String × PyVal)) (co ce : String)
    (hok : okFieldOk entries = true) (hpr : printsOkB entries = true) :
    ∃ p, attachAndFinalize (.dictV entries) co ce = .ok (0, p) ∧ okIsBool p = true := by
  simp only [attachAndFinalize]
  by_cases hco : co = ""
  · by_cases hce : ce = ""
    · obtain ⟨p, hp, hb⟩ := finalizeOk_dict entries hok
      exact ⟨p, by simp [hco, hce, hp], hb⟩
    · obtain ⟨es2, h2, hok2, hpr2⟩ := setdefaultPrints_dict entries "stderr" ce hpr
      obtain ⟨p, hp, hb⟩ := finalizeOk_dict es2 (by unfold okFieldOk at *; rw [hok2]; exact hok)
      exact ⟨p, by simp [hco, hce, h2, hp], hb⟩
  · obtain ⟨es1, h1, hok1, hpr1⟩ := setdefaultPrints_dict entries "stdout" co hpr
    by_cases hce : ce = ""
    · obtain ⟨p, hp, hb⟩ := finalizeOk_dict es1 (by unfold okFieldOk at *; rw [hok1]; exact hok)
      exact ⟨p, by simp [hco, hce, h1, hp], hb⟩
    · obtain ⟨es2, h2, hok2, hpr2⟩ := setdefaultPrints_dict es1 "stderr" ce hpr1
      obtain ⟨p, hp, hb⟩ :=
        finalizeOk_dict es2 (by unfold okFieldOk at *; rw [hok2, hok1]; exact hok)
      exact ⟨p, by simp [hco, hce, h1, h2, hp], hb⟩

/-! Load-phase lemmas. -/

theorem loadAux_append (defaults : Params) (env : String → ModuleBehavior)
    (A B : List (String × Params)) (acc : LoadResult) :
    loadAux defaults env (A ++ B) acc =
      match loadAux defaults env A acc with
      | .error e => .error e
      | .ok acc' => loadAux defaults env B acc' := by
  induction A generalizing acc with
  | nil => simp [loadAux]
  | cons hd tl ih =>
    show loadAux defaults env (hd :: (tl ++ B)) acc = _
    rw [loadAux]
    cases h : loadStep defaults env acc hd with
    | error e => simp [loadAux, h]
    | ok acc' => simp [loadAux, h, ih]

theorem loadAux_shift (defaults : Params) (env : String → ModuleBehavior)
    (ds : List (String × Params)) (L : List (String × LoadedFeature)) (f s d : Nat) :
    loadAux defaults env ds { loaded := L, failures := f, scanned := s, disabled := d } =
      match loadAux defaults env ds { loaded := L, failures := 0, scanned := 0, disabled := 0 } with
      | .error e => .error e
      | .ok r => .ok ⟨r.loaded, f + r.failures, s + r.scanned, d + r.disabled⟩ := by
  induction ds generalizing L f s d with
  | nil => simp [loadAux]
  | cons hd tl ih =>
    rw [loadAux, loadAux]
    cases h : featureOutcome defaults env hd with
    | error e => simp [loadStep, h]
    | ok o =>
      cases o with
      | disabledO =>
        simp only [loadStep, h]
        rw [ih, ih L 0 1 1]
        cases loadAux defaults env tl
          { loaded := L, failures := 0, scanned := 0, disabled := 0 } with
        | error e => simp
        | ok r => simp [Nat.add_assoc]
      | failedO =>
        simp only [loadStep, h]
        rw [ih, ih L 1 1 0]
        cases loadAux defaults env tl
          { loaded := L, failures := 0, scanned := 0, disabled := 0 } with
        | error e => simp
        | ok r => simp [Nat.add_assoc]
      | loadedO rec =>
        simp only [loadStep, h]
        rw [ih, ih (dictAssign L hd.1 rec) 0 1 0]
        cases loadAux defaults env tl
          { loaded := dictAssign L hd.1 rec, failures := 0, scanned := 0, disabled := 0 } with
        | error e => simp
        | ok r => simp [Nat.add_assoc]

theorem loadAux_ok_of_outcomes (defaults : Params) (env : String → ModuleBehavior)
    (ds : List (String × Params)) (acc : LoadResult)
    (h : ∀ fd ∈ ds, ∃ o, featureOutcome defaults env fd = .ok o) :
    ∃ r, loadAux defaults env ds acc = .ok r := by
  induction ds generalizing acc with
  | nil => exact ⟨acc, rfl⟩
  | cons hd tl ih =>
    obtain ⟨o, ho⟩ := h hd (List.mem_cons_self hd tl)
    have htl : ∀ fd ∈ tl, ∃ o, featureOutcome defaults env fd = .ok o :=
      fun fd hfd => h fd (List.mem_cons_of_mem hd hfd)
    cases o with
    | disabledO =>
      obtain ⟨r, hr⟩ :=
        ih { acc with scanned := acc.scanned + 1, disabled := acc.disabled + 1 } htl
      exact ⟨r, by simp only [loadAux, loadStep, ho]; exact hr⟩
    | failedO =>
      obtain ⟨r, hr⟩ :=
        ih { acc with scanned := acc.scanned + 1, failures := acc.failures + 1 } htl
      exact ⟨r, by simp only [loadAux, loadStep, ho]; exact hr⟩
    | loadedO rec =>
      obtain ⟨r, hr⟩ :=
        ih ⟨dictAssign acc.loaded hd.1 rec, acc.failures, acc.scanned + 1, acc.disabled⟩ htl
      exact ⟨r, by simp only [loadAux, loadStep, ho]; exact hr⟩

theorem loadAux_counter_inv (defaults : Params) (env : String → ModuleBehavior)
    (ds : List (String × Params)) (acc r : LoadResult)
    (hnd : (ds.map Prod.fst).Nodup)
    (hdisj : ∀ n ∈ ds.map Prod.fst, lookupD acc.loaded n = none)
    (hacc : acc.scanned = acc.disabled + acc.failures + acc.loaded.length)
    (h : loadAux defaults env ds acc = .ok r) :
    r.scanned = r.disabled + r.failures + r.loaded.length ∧
      (∀ m, (lookupD r.loaded m).isSome →
        (lookupD acc.loaded m).isSome ∨ m ∈ ds.map Prod.fst) := by
  induction ds generalizing acc with
  | nil =>
    injection h with h
    subst h
    exact ⟨hacc, fun m hm => Or.inl hm⟩
  | cons hd tl ih =>
    simp only [List.map_cons, List.nodup_cons] at hnd
    rw [loadAux] at h
    cases ho : featureOutcome defaults env hd with
    | error e => rw [loadStep, ho] at h; exact absurd h (by simp)
    | ok o =>
      cases o with
      | disabledO =>
        rw [loadStep, ho] at h
        simp only at h
        have := ih { acc with scanned := acc.scanned + 1, disabled := acc.disabled + 1 }
          hnd.2 (fun n hn => hdisj n (List.mem_cons_of_mem _ hn)) (by simp; omega) h
        exact ⟨this.1, fun m hm => (this.2 m hm).imp_right (List.mem_cons_of_mem _)⟩
      | failedO =>
        rw [loadStep, ho] at h
        simp only at h
        have := ih { acc with scanned := acc.scanned + 1, failures := acc.failures + 1 }
          hnd.2 (fun n hn => hdisj n (List.mem_cons_of_mem _ hn)) (by simp; omega) h
        exact ⟨this.1, fun m hm => (this.2 m hm).imp_right (List.mem_cons_of_mem _)⟩
      | loadedO rec =>
        rw [loadStep, ho] at h
        simp only at h
        have hfresh : lookupD acc.loaded hd.1 = none :=
          hdisj hd.1 (by simp)
        have hlen : (dictAssign acc.loaded hd.1 rec).length = acc.loaded.length + 1 := by
          rw [dictAssign_length, hfresh]; simp
        have hdisj' : ∀ n ∈ tl.map Prod.fst,
            lookupD (dictAssign acc.loaded hd.1 rec) n = none := by
          intro n hn
          rw [lookupD_dictAssign, if_neg (fun hh : n = hd.1 => hnd.1 (hh ▸ hn))]
          exact hdisj n (List.mem_cons_of_mem _ hn)
        have hstep := ih ⟨dictAssign acc.loaded hd.1 rec, acc.failures,
            acc.scanned + 1, acc.disabled⟩
          hnd.2 hdisj' (by simp [hlen]; omega) h
        refine ⟨hstep.1, fun m hm => ?_⟩
        rcases hstep.2 m hm with hm' | hm'
        · simp only [lookupD_dictAssign] at hm'
          by_cases hmn : m = hd.1
          · exact Or.inr (by simp [hmn])
          · rw [if_neg hmn] at hm'
            exact Or.inl hm'
        · exact Or.inr (List.mem_cons_of_mem _ hm')

theorem loadAux_key_none (defaults : Params) (env : String → ModuleBehavior)
    (ds : List (String × Params)) (acc r : LoadResult) (n : String)
    (h : loadAux defaults env ds acc = .ok r)
    (hacc : lookupD acc.loaded n = none)
    (hds : ∀ fd ∈ ds, fd.1 = n → ∀ rec, featureOutcome defaults env fd ≠ .ok (.loadedO rec)) :
    lookupD r.loaded n = none := by
  induction ds generalizing acc with
  | nil => injection h with h; subst h; exact hacc
  | cons hd tl ih =>
    rw [loadAux] at h
    cases ho : featureOutcome defaults env hd with
    | error e =>
      rw [loadStep, ho] at h
      exact Except.noConfusion h
    | ok o =>
      cases o with
      | disabledO =>
        rw [loadStep, ho] at h
        simp only at h
        exact ih { acc with scanned := acc.scanned + 1, disabled := acc.disabled + 1 } h hacc
          (fun fd hfd => hds fd (List.mem_cons_of_mem _ hfd))
      | failedO =>
        rw [loadStep, ho] at h
        simp only at h
        exact ih { acc with scanned := acc.scanned + 1, failures := acc.failures + 1 } h hacc
          (fun fd hfd => hds fd (List.mem_cons_of_mem _ hfd))
      | loadedO rec =>
        rw [loadStep, ho] at h
        simp only at h
        by_cases hn : hd.1 = n
        · exact absurd ho (hds hd (List.mem_cons_self hd tl) hn rec)
        · refine ih ⟨dictAssign acc.loaded hd.1 rec, acc.failures,
            acc.scanned + 1, acc.disabled⟩ h ?_
            (fun fd hfd => hds fd (List.mem_cons_of_mem _ hfd))
          show lookupD (dictAssign acc.loaded hd.1 rec) n = none
          rw [lookupD_dictAssign, if_neg (fun hh : n = hd.1 => hn hh.symm)]
          exact hacc

theorem lookupD_of_mem_nodup {α : Type} (ds : List (String × α)) (x : String × α)
    (hnd : (ds.map Prod.fst).Nodup) (hm : x ∈ ds) : lookupD ds x.1 = some x.2 := by
  induction ds with
  | nil => cases hm
  | cons hd tl ih =>
    simp only [List.map_cons, List.nodup_cons] at hnd
    rcases List.mem_cons.mp hm with he | ht
    · subst he
      rw [lookupD_cons, if_pos rfl]
    · have hne : hd.1 ≠ x.1 := by
        intro hh
        exact hnd.1 (hh ▸ List.mem_map_of_mem Prod.fst ht)
      rw [lookupD_cons, if_neg hne]
      exact ih hnd.2 ht

theorem lookupD_map_snd {α β : Type} (l : List (String × α)) (f : α → β) (k : String) :
    lookupD (l.map (fun kv => (kv.1, f kv.2))) k = (lookupD l k).map f := by
  induction l with
  | nil => rfl
  | cons hd tl ih =>
    obtain ⟨k1, v1⟩ := hd
    by_cases h : k1 = k
    · subst h
      simp [lookupD]
    · simp [lookupD, h, ih]

theorem lookupD_applyCalls (st : EasyOptions) (cs : List AddCall) (oid : String) :
    lookupD (applyCalls st cs).options oid =
      ((cs.reverse.find? (fun c => c.id == oid)).map
        (fun c => ({ id := c.id, label := c.label, callable := c.cb } : OptionRec))).orElse
        (fun _ => lookupD st.options oid) := by
  induction cs generalizing st with
  | nil => simp [applyCalls]
  | cons c rest ih =>
    show lookupD (applyCalls (EasyOptions.add_option st c.id c.label c.cb) rest).options oid = _
    rw [ih, List.reverse_cons, find?_append]
    have hopt : (EasyOptions.add_option st c.id c.label c.cb).options =
        dictAssign st.options c.id { id := c.id, label := c.label, callable := c.cb } := rfl
    rw [hopt]
    cases hrest : List.find? (fun c => c.id == oid) rest.reverse with
    | some cfound => simp
    | none =>
      rw [lookupD_dictAssign]
      by_cases hc : c.id = oid
      · subst hc
        simp [List.find?]
      · have hc' : ¬oid = c.id := fun hh => hc hh.symm
        have hbeq : (c.id == oid) = false := by simp [hc]
        simp [List.find?, hc', hbeq]

/-! Claim theorems. -/

/-- C1: for every value returned by a resolved feature callable -- a mapping
without `ok` (JSON-serializable with a well-shaped `_prints` entry when it
passes through), a JSON string whose parse carries no non-boolean `ok`, an
HTML string, or a plain scalar -- `_normalize_output` returns an envelope
mapping whose `ok` key holds a boolean; and a callable that raises, when
invoked through the Option Registry path, makes `run_option` return an
`{ok: false, error: ...}` envelope whose `ok` is boolean. -/
theorem C1_envelope_totality (parse : String → Option PyVal) (out : PyVal) (co ce : String)
    (bagR : List (String × LoadedFeature)) (featureR : String) (recR : LoadedFeature)
    (stR : EasyOptions) (oidR : String) (orecR : OptionRec) (eR : Exn)
    (poR peR : String) (paramsR : Params) (parseR : String → Option PyVal)
    (hdict : ∀ es, out = .dictV es → dictPassOk es = true)
    (hstr : ∀ s je, out = .strV s → parse (pyStrip s) = some (.dictV je) → parsedPassOk je = true)
    (r1 : lookupD bagR featureR = some recR)
    (r2 : recR.easy_options = some (.easy stR))
    (r3 : lookupD stR.options oidR = some orecR)
    (r4 : orecR.callable paramsR =
      { result := .error eR, printedOut := poR, printedErr := peR }) :
    (∃ p, normalize_output parse out co ce = .ok (0, p) ∧ okIsBool p = true) ∧
    (∃ m, run_option bagR featureR (some oidR) paramsR parseR = .ok (1, errEnvelope m) ∧
      okIsBool (errEnvelope m) = true) := by
  constructor
  case right =>
    simp only [run_option, r1, r2]
    have hcall : call_easy_option (.easy stR) (some oidR) paramsR = .error eR := by
      simp only [call_easy_option, EasyOptions.get_option_callable, r3, r4]
    simp only [hcall]
    cases eR with
    | keyError k => exact ⟨_, rfl, rfl⟩
    | exn kind msg => exact ⟨_, rfl, rfl⟩
  case left =>
  unfold normalize_output
  cases out with
  | noneV => exact attachAndFinalize_dict _ co ce rfl rfl
  | boolV b => exact attachAndFinalize_dict _ co ce rfl rfl
  | intV n => exact attachAndFinalize_dict _ co ce rfl rfl
  | objV s => exact attachAndFinalize_dict _ co ce rfl rfl
  | listV items => exact attachAndFinalize_dict _ co ce rfl rfl
  | dictV es =>
    have hd := hdict es rfl
    unfold dictPassOk at hd
    rw [Bool.and_eq_true] at hd
    have hokn : lookupD es "ok" = none := by
      cases he : lookupD es "ok" with
      | none => rfl
      | some v => rw [he] at hd; exact absurd hd.1 (by simp)
    cases hhj : ((lookupD es "html").isSome || (lookupD es "json").isSome) with
    | false =>
      have hb : (lookupD es "html").isSome = false := by
        rcases Bool.or_eq_false_iff.mp hhj with ⟨h1, h2⟩; exact h1
      have hc : (lookupD es "json").isSome = false := by
        rcases Bool.or_eq_false_iff.mp hhj with ⟨h1, h2⟩; exact h2
      have hip : initialPayload parse (.dictV es) =
          .dictV [("ok", .boolV true), ("json", safe_json (.dictV es))] := by
        simp only [initialPayload]
        rw [hokn, hb, hc]
        simp
      rw [hip]
      exact attachAndFinalize_dict _ co ce rfl rfl
    | true =>
      have hcond : ((lookupD es "ok").isSome || (lookupD es "html").isSome
          || (lookupD es "json").isSome) = true := by
        rw [hokn]
        simpa using hhj
      have hjp : jsonableEntries es = true ∧ printsOkB es = true := by
        have h2 := hd.2
        rw [hhj] at h2
        simpa using h2
      have hip : initialPayload parse (.dictV es) = .dictV es := by
        simp only [initialPayload]
        rw [hcond, if_pos rfl]
        unfold safe_json
        have hj : jsonable (.dictV es) = true := hjp.1
        rw [hj]
        simp
      rw [hip]
      exact attachAndFinalize_dict es co ce (by unfold okFieldOk; rw [hokn]) hjp.2
  | strV s =>
    simp only [initialPayload]
    cases hstart : (pyStartsWith (pyStrip s) "\x7b" || pyStartsWith (pyStrip s) "[") with
    | true =>
      rw [if_pos rfl]
      cases hp : parse (pyStrip s) with
      | none => exact attachAndFinalize_dict _ co ce rfl rfl
      | some j =>
        cases j with
        | noneV => exact attachAndFinalize_dict _ co ce rfl rfl
        | boolV b => exact attachAndFinalize_dict _ co ce rfl rfl
        | intV n => exact attachAndFinalize_dict _ co ce rfl rfl
        | strV t => exact attachAndFinalize_dict _ co ce rfl rfl
        | listV l => exact attachAndFinalize_dict _ co ce rfl rfl
        | objV t => exact attachAndFinalize_dict _ co ce rfl rfl
        | dictV je =>
          have hj := hstr s je rfl hp
          unfold parsedPassOk at hj
          cases hoj : lookupD je "ok" with
          | some v =>
            rw [hoj] at hj
            cases v with
            | boolV b =>
              have hcond : ((lookupD je "ok").isSome || (lookupD je "html").isSome
                  || (lookupD je "json").isSome) = true := by rw [hoj]; simp
              simp only [hcond, if_true]
              exact attachAndFinalize_dict je co ce (by unfold okFieldOk; rw [hoj]) hj
            | noneV => exact absurd hj (by simp)
            | intV n => exact absurd hj (by simp)
            | strV t => exact absurd hj (by simp)
            | listV l => exact absurd hj (by simp)
            | dictV d => exact absurd hj (by simp)
            | objV t => exact absurd hj (by simp)
          | none =>
            rw [hoj] at hj
            cases hhj : ((lookupD je "html").isSome || (lookupD je "json").isSome) with
            | false =>
              have hb := (Bool.or_eq_false_iff.mp hhj).1
              have hc := (Bool.or_eq_false_iff.mp hhj).2
              have hcond : ((lookupD je "ok").isSome || (lookupD je "html").isSome
                  || (lookupD je "json").isSome) = false := by
                rw [hoj, hb, hc]; rfl
              simp only [hcond, Bool.false_eq_true, if_false]
              exact attachAndFinalize_dict _ co ce rfl rfl
            | true =>
              have hcond : ((lookupD je "ok").isSome || (lookupD je "html").isSome
                  || (lookupD je "json").isSome) = true := by
                rw [hoj]; simpa using hhj
              simp only [hcond, if_true]
              have hpr : printsOkB je = true := by
                rw [hhj] at hj
                simpa using hj
              exact attachAndFinalize_dict je co ce (by unfold okFieldOk; rw [hoj]) hpr
    | false =>
      rw [if_neg (by simp)]
      cases hlt : pyStartsWith (pyStrip s) "<" with
      | true =>
        rw [if_pos rfl]
        exact attachAndFinalize_dict _ co ce rfl rfl
      | false =>
        rw [if_neg (by simp)]
        exact attachAndFinalize_dict _ co ce rfl rfl

/-- C1 counterexample: a resolved callable returning the JSON string
`{"ok": 0}` makes `_normalize_output` pass the parsed mapping through, so the
envelope's `ok` key holds the number `0`, not a boolean. -/
theorem C1_counterexample :
    normalize_output parseOkZero (.strV jsonOkZero) "" "" =
      .ok (0, .dictV [("ok", .intV 0)]) ∧
    okIsBool (.dictV [("ok", .intV 0)]) = false :=
  ⟨rfl, rfl⟩

/-- C1 witness: the amended totality theorem applied to the concrete mapping
`{"a": 1}` (no `ok` key) with empty captured streams, and to the concrete
raising-option feature bag. -/
theorem C1_witness :
    dictPassOk [("a", .intV 1)] = true ∧
    ((∃ p, normalize_output parseNone (.dictV [("a", .intV 1)]) "" "" = .ok (0, p) ∧
       okIsBool p = true) ∧
     (∃ m, run_option [("alpha", recEzRaise)] "alpha" (some "go") [] parseNone =
        .ok (1, errEnvelope m) ∧ okIsBool (errEnvelope m) = true)) := by
  refine ⟨rfl, C1_envelope_totality parseNone (.dictV [("a", .intV 1)]) "" ""
    [("alpha", recEzRaise)] "alpha" recEzRaise ezGo "go"
    { id := "go", label := "Go", callable := actRaise "ValueError" "bad input" }
    (.exn "ValueError" "bad input") "" "" [] parseNone ?_ ?_ rfl rfl rfl rfl⟩
  · intro es h
    injection h with h
    subst h
    rfl
  · intro s je h hp
    cases h

/-- C2: every raising option callable reached through the Option Registry is
caught and yields the envelope `{ok: false, error: optionRaiseMsg e}` --
`"Option raised: <kind>: <message>"` for a non-`KeyError` exception, and the
`repr` of the key with no prefix for a `KeyError` (which the earlier
`except KeyError` handler catches) -- while a raise inside the `run_default`
fallback path propagates out of `run_option` unhandled. -/
theorem C2_action_error (bag : List (String × LoadedFeature)) (feature : String)
    (rec : LoadedFeature) (st : EasyOptions) (oid : String) (orec : OptionRec)
    (eX : Exn) (pout perr : String) (params : Params) (parse : String → Option PyVal)
    (bag2 : List (String × LoadedFeature)) (feature2 : String) (rec2 : LoadedFeature)
    (rd : Act) (e2 : Exn) (pout2 perr2 : String) (params2 : Params)
    (parse2 : String → Option PyVal) (option2 : Option String)
    (h1 : lookupD bag feature = some rec)
    (h2 : rec.easy_options = some (.easy st))
    (h3 : lookupD st.options oid = some orec)
    (h4 : orec.callable params =
      { result := .error eX, printedOut := pout, printedErr := perr })
    (g1 : lookupD bag2 feature2 = some rec2)
    (g2 : rec2.easy_options = none)
    (g3 : rec2.inst.runDefault = some rd)
    (g4 : rd params2 = { result := .error e2, printedOut := pout2, printedErr := perr2 })
    (g5 : option2 = none ∨ option2 = some "" ∨ option2 = some "default"
      ∨ option2 = some "run_default" ∨ option2 = some "run") :
    run_option bag feature (some oid) params parse =
      .ok (1, errEnvelope (optionRaiseMsg eX)) ∧
    run_option bag2 feature2 option2 params2 parse2 = .error e2 := by
  constructor
  · simp only [run_option, h1, h2]
    have hcall : call_easy_option (.easy st) (some oid) params = .error eX := by
      simp only [call_easy_option, EasyOptions.get_option_callable, h3, h4]
    simp only [hcall]
    cases eX with
    | keyError k => rfl
    | exn kind msg => rfl
  · simp only [run_option, g1, g2, g3]
    rw [if_pos g5, g4]

/-- C2 counterexample: the claim's own example fails twice over.  A
registered option raising `ValueError("bad input")` yields the error string
`"Option raised: ValueError: bad input"`, not `"ValueError: bad input"`; and
a default action raising the same exception escapes `run_option` as a raised
exception instead of producing any envelope. -/
theorem C2_counterexample :
    run_option [("alpha", recEzRaise)] "alpha" (some "go") [] parseNone =
      .ok (1, errEnvelope "Option raised: ValueError: bad input") ∧
    ("Option raised: ValueError: bad input" ≠ "ValueError: bad input") ∧
    run_option [("alpha", recNoEzRaise)] "alpha" none [] parseNone =
      .error (.exn "ValueError" "bad input") :=
  ⟨rfl, by decide, rfl⟩

/-- C2 witness: the amended theorem applied to a callable raising
`ValueError` (prefixed envelope), a callable raising `KeyError` (repr of the
key, no prefix), and a raising default action (the raise escapes). -/
theorem C2_witness :
    run_option [("alpha", recEzRaise)] "alpha" (some "go") [] parseNone =
      .ok (1, errEnvelope "Option raised: ValueError: bad input") ∧
    run_option [("alpha", recEzKeyRaise)] "alpha" (some "go") [] parseNone =
      .ok (1, errEnvelope "\x27boom\x27") ∧
    run_option [("alpha", recNoEzRaise)] "alpha" none [] parseNone =
      .error (.exn "ValueError" "bad input") :=
  ⟨(C2_action_error [("alpha", recEzRaise)] "alpha" recEzRaise ezGo "go"
      { id := "go", label := "Go", callable := actRaise "ValueError" "bad input" }
      (.exn "ValueError" "bad input") "" "" [] parseNone
      [("alpha", recNoEzRaise)] "alpha" recNoEzRaise
      (actRaise "ValueError" "bad input") (.exn "ValueError" "bad input") "" "" []
      parseNone none
      rfl rfl rfl rfl rfl rfl rfl rfl (Or.inl rfl)).1,
   (C2_action_error [("alpha", recEzKeyRaise)] "alpha" recEzKeyRaise ezKey "go"
      { id := "go", label := "Go", callable := actRaiseKey "boom" }
      (.keyError (some "boom")) "" "" [] parseNone
      [("alpha", recNoEzRaise)] "alpha" recNoEzRaise
      (actRaise "ValueError" "bad input") (.exn "ValueError" "bad input") "" "" []
      parseNone none
      rfl rfl rfl rfl rfl rfl rfl rfl (Or.inl rfl)).1,
   (C2_action_error [("alpha", recEzRaise)] "alpha" recEzRaise ezGo "go"
      { id := "go", label := "Go", callable := actRaise "ValueError" "bad input" }
      (.exn "ValueError" "bad input") "" "" [] parseNone
      [("alpha", recNoEzRaise)] "alpha" recNoEzRaise
      (actRaise "ValueError" "bad input") (.exn "ValueError" "bad input") "" "" []
      parseNone none
      rfl rfl rfl rfl rfl rfl rfl rfl (Or.inl rfl)).2⟩

/-- C3: a feature definition B whose load attempt fails through any of the
recovered error kinds (missing module, missing `register`, raising
`register`, malformed record, contract violation, self-test returning a
falsy value) is excluded alone: the load phase completes without raising,
features before and after B load exactly as they would without B, and only
the failed counter grows by one.  (A self-test that raises is NOT recovered:
see the counterexample.) -/
theorem C3_load_isolation (defaults : Params) (env : String → ModuleBehavior)
    (A C : List (String × Params)) (B : String × Params)
    (hB : featureOutcome defaults env B = .ok .failedO)
    (hA : ∀ fd ∈ A, ∃ o, featureOutcome defaults env fd = .ok o)
    (hC : ∀ fd ∈ C, ∃ o, featureOutcome defaults env fd = .ok o) :
    ∃ r r', load_features defaults env (A ++ B :: C) = .ok r ∧
      load_features defaults env (A ++ C) = .ok r' ∧
      r.loaded = r'.loaded ∧ r.failures = r'.failures + 1 ∧
      r.scanned = r'.scanned + 1 ∧ r.disabled = r'.disabled := by
  obtain ⟨rA, hrA⟩ := loadAux_ok_of_outcomes defaults env A ⟨[], 0, 0, 0⟩ hA
  obtain ⟨rC, hrC⟩ := loadAux_ok_of_outcomes defaults env C ⟨rA.loaded, 0, 0, 0⟩ hC
  have hshift1 : loadAux defaults env C
      ⟨rA.loaded, rA.failures + 1, rA.scanned + 1, rA.disabled⟩ =
      .ok ⟨rC.loaded, (rA.failures + 1) + rC.failures, (rA.scanned + 1) + rC.scanned,
        rA.disabled + rC.disabled⟩ := by
    rw [loadAux_shift, hrC]
  have hshift2 : loadAux defaults env C rA =
      .ok ⟨rC.loaded, rA.failures + rC.failures, rA.scanned + rC.scanned,
        rA.disabled + rC.disabled⟩ := by
    have : rA = ⟨rA.loaded, rA.failures, rA.scanned, rA.disabled⟩ := rfl
    rw [this, loadAux_shift, hrC]
  refine ⟨⟨rC.loaded, (rA.failures + 1) + rC.failures, (rA.scanned + 1) + rC.scanned,
      rA.disabled + rC.disabled⟩,
    ⟨rC.loaded, rA.failures + rC.failures, rA.scanned + rC.scanned,
      rA.disabled + rC.disabled⟩, ?_, ?_, rfl, by simp; omega, by simp; omega, rfl⟩
  · unfold load_features
    rw [loadAux_append, hrA]
    show loadAux defaults env (B :: C) rA = _
    rw [loadAux, loadStep, hB]
    exact hshift1
  · unfold load_features
    rw [loadAux_append, hrA]
    exact hshift2

/-- C3 counterexample: with feature `beta`'s self-test raising, the load
phase itself raises the self-test's exception out of the manager, and later
feature `gamma` is never loaded -- no load result is produced at all. -/
theorem C3_counterexample :
    load_features DEFAULTS envSelfTestRaise defsABC =
      .error (.exn "RuntimeError" "self-test blew up") :=
  rfl

/-- C3 witness: the isolation theorem applied to `alpha`, a missing `beta`
module, and `gamma`. -/
theorem C3_witness :
    featureOutcome DEFAULTS envBetaMissing ("beta", []) = .ok .failedO ∧
    (∃ r r', load_features DEFAULTS envBetaMissing ([("alpha", [])] ++ ("beta", []) :: [("gamma", [])]) = .ok r ∧
      load_features DEFAULTS envBetaMissing ([("alpha", [])] ++ [("gamma", [])]) = .ok r' ∧
      r.loaded = r'.loaded ∧ r.failures = r'.failures + 1 ∧
      r.scanned = r'.scanned + 1 ∧ r.disabled = r'.disabled) := by
  refine ⟨rfl, C3_load_isolation DEFAULTS envBetaMissing [("alpha", [])] [("gamma", [])]
    ("beta", []) rfl ?_ ?_⟩
  · intro fd hfd
    rw [List.mem_singleton] at hfd
    subst hfd
    exact ⟨_, rfl⟩
  · intro fd hfd
    rw [List.mem_singleton] at hfd
    subst hfd
    exact ⟨_, rfl⟩

/-- C4: calling the shutdown operation twice runs the feature's teardown
twice, not at most once -- neither `API.shutdown` nor
`FeatureManager.shutdown` is guarded, and the `_shutdown_handled` flag set in
`API.__init__` is never consulted or updated. -/
theorem C4_shutdown_reruns_teardown :
    (apiShut.shutdown.1 ++ apiShut.shutdown.2.shutdown.1).count "alpha-teardown" = 2 ∧
    ¬((apiShut.shutdown.1 ++ apiShut.shutdown.2.shutdown.1).count "alpha-teardown" ≤ 1) ∧
    apiShut.shutdown.2.shutdown_handled = false :=
  ⟨rfl, by decide, rfl⟩

/-- C5: the effective configuration takes the default's value on keys absent
from the overrides, the override's value on keys present in both, and drops
keys present only in the overrides. -/
theorem C5_config_merge (D O : Params) (k : String)
    (hO : (O.map Prod.fst).Nodup) :
    lookupD (apply_overrides (apply_defaults [] D) O) k =
      if (lookupD D k).isSome then
        (if (lookupD O k).isSome then lookupD O k else lookupD D k)
      else none := by
  have hd : lookupD (apply_defaults [] D) k = lookupD D k := by
    rw [lookupD_apply_defaults]
    rfl
  rw [lookupD_apply_overrides O _ k hO, hd]
  by_cases hp : (lookupD D k).isSome
  · rw [if_pos hp, if_pos hp]
    cases ho : lookupD O k with
    | none => simp
    | some w => simp
  · rw [if_neg hp, if_neg hp]
    exact Option.not_isSome_iff_eq_none.mp hp

/-- C5 witness: the merge theorem at `DEFAULTS` with overrides
`{version: v2_0, extra: x}`, checked on an overridden key, a defaulted key,
and the unknown key. -/
theorem C5_witness :
    (OW.map Prod.fst).Nodup ∧
    lookupD (apply_overrides (apply_defaults [] DEFAULTS) OW) "version" =
      (if (lookupD DEFAULTS "version").isSome then
        (if (lookupD OW "version").isSome then lookupD OW "version"
         else lookupD DEFAULTS "version")
      else none) ∧
    lookupD (apply_overrides (apply_defaults [] DEFAULTS) OW) "version" =
      some (.strV "v2_0") ∧
    lookupD (apply_overrides (apply_defaults [] DEFAULTS) OW) "enabled" =
      some (.boolV true) ∧
    lookupD (apply_overrides (apply_defaults [] DEFAULTS) OW) "extra" = none :=
  ⟨by decide, C5_config_merge DEFAULTS OW "version" (by decide), rfl, rfl, rfl⟩

/-- C6: for a loaded feature without an Option Registry whose instance has a
`run_default` action, an option identifier that is absent, empty, `default`,
`run_default`, or `run` routes the bridge call to that default action, and a
default action returning `"<h2>ok</h2>"` yields the envelope
`{ok: true, html: "<h2>ok</h2>"}`. -/
theorem C6_default_routing (bag : List (String × LoadedFeature)) (feature : String)
    (rec : LoadedFeature) (rd : Act) (params : Params) (parse : String → Option PyVal)
    (option : Option String) (out : PyVal)
    (h1 : lookupD bag feature = some rec)
    (h2 : rec.easy_options = none)
    (h3 : rec.inst.runDefault = some rd)
    (h4 : rd params = { result := .ok out, printedOut := "", printedErr := "" })
    (h5 : option = none ∨ option = some "" ∨ option = some "default"
      ∨ option = some "run_default" ∨ option = some "run") :
    run_option bag feature option params parse = normalize_output parse out "" "" ∧
    (out = .strV "<h2>ok</h2>" →
      run_option bag feature option params parse =
        .ok (0, .dictV [("ok", .boolV true), ("html", .strV "<h2>ok</h2>")])) := by
  have hmain : run_option bag feature option params parse =
      normalize_output parse out "" "" := by
    simp only [run_option, h1, h2, h3]
    rw [if_pos h5, h4]
  refine ⟨hmain, fun hout => ?_⟩
  subst hout
  rw [hmain]
  rfl

/-- C6 witness: the routing theorem at a concrete bag whose feature has only
a default action returning `"<h2>ok</h2>"`, invoked with an absent option. -/
theorem C6_witness :
    lookupD [("alpha", recNoEzOk)] "alpha" = some recNoEzOk ∧
    run_option [("alpha", recNoEzOk)] "alpha" none [] parseNone =
      .ok (0, .dictV [("ok", .boolV true), ("html", .strV "<h2>ok</h2>")]) :=
  ⟨rfl, (C6_default_routing [("alpha", recNoEzOk)] "alpha" recNoEzOk
      (actOkStr "<h2>ok</h2>") [] parseNone none (.strV "<h2>ok</h2>")
      rfl rfl rfl rfl (Or.inl rfl)).2 rfl⟩

theorem lookupD_available (l : List (String × LoadedFeature)) (k : String) :
    lookupD (l.map (fun nf => (nf.1, (nf.2.version, nf.2.display_name)))) k =
      (lookupD l k).map (fun d => (d.version, d.display_name)) :=
  lookupD_map_snd l (fun d => (d.version, d.display_name)) k

/-- C7: a feature whose load outcome is Disabled never appears in
`get_available_features()`, invoking it raises the NotFound exception
`Exception("Feature '<id>' not found")`, and invoking the unknown feature id
`ghost` through the bridge yields `{ok: false, error: "Unknown feature
'ghost'"}`. -/
theorem C7_disabled_invisible (defaults : Params) (env : String → ModuleBehavior)
    (defs : List (String × Params)) (r : LoadResult) (n : String) (ov : Params)
    (debug : Bool) (oid : Option String) (params : Params)
    (bag2 : List (String × LoadedFeature)) (oid2 : Option String) (params2 : Params)
    (parse2 : String → Option PyVal)
    (hnd : (defs.map Prod.fst).Nodup)
    (hmem : (n, ov) ∈ defs)
    (hdis : featureOutcome defaults env (n, ov) = .ok .disabledO)
    (hload : load_features defaults env defs = .ok r)
    (hghost : lookupD bag2 "ghost" = none) :
    lookupD (get_available_features ⟨debug, r.loaded⟩) n = none ∧
    invoke_feature ⟨debug, r.loaded⟩ n oid params =
      .error (.exn "Exception" ("Feature \x27" ++ n ++ "\x27 not found")) ∧
    run_option bag2 "ghost" oid2 params2 parse2 =
      .ok (1, errEnvelope ("Unknown feature \x27ghost\x27")) := by
  have hnone : lookupD r.loaded n = none := by
    refine loadAux_key_none defaults env defs ⟨[], 0, 0, 0⟩ r n hload rfl ?_
    intro fd hfd hf1 rec hrec
    have hfd2 : lookupD defs fd.1 = some fd.2 := lookupD_of_mem_nodup defs fd hnd hfd
    have hnv : lookupD defs n = some ov := lookupD_of_mem_nodup defs (n, ov) hnd hmem
    rw [hf1] at hfd2
    rw [hfd2] at hnv
    injection hnv with hnv
    have hfd3 : fd = (n, ov) := by
      rw [← hf1, ← hnv]
    rw [hfd3, hdis] at hrec
    injection hrec with hrec
    cases hrec
  refine ⟨?_, ?_, ?_⟩
  · show lookupD (get_available_features ⟨debug, r.loaded⟩) n = none
    unfold get_available_features
    rw [lookupD_available]
    show (lookupD r.loaded n).map _ = none
    rw [hnone]
    rfl
  · simp only [invoke_feature]
    rw [hnone]
  · simp only [run_option]
    rw [hghost]
    rfl

/-- C7 witness: the invisibility theorem at a two-feature definition list
where `alpha` is disabled by override and `beta` loads, plus the concrete
`ghost` lookup against an empty bag. -/
theorem C7_witness :
    load_features DEFAULTS envAllGood defsDisabledAlpha = .ok rDisabledAlpha ∧
    featureOutcome DEFAULTS envAllGood ("alpha", [("enabled", .boolV false)]) =
      .ok .disabledO ∧
    (lookupD (get_available_features ⟨false, rDisabledAlpha.loaded⟩) "alpha" = none ∧
     invoke_feature ⟨false, rDisabledAlpha.loaded⟩ "alpha" none [] =
       .error (.exn "Exception" ("Feature \x27alpha\x27 not found")) ∧
     run_option [] "ghost" none [] parseNone =
       .ok (1, errEnvelope ("Unknown feature \x27ghost\x27"))) :=
  ⟨rfl, rfl, C7_disabled_invisible DEFAULTS envAllGood defsDisabledAlpha rDisabledAlpha
    "alpha" [("enabled", .boolV false)] false none [] [] none [] parseNone
    (by decide) (List.mem_cons_self _ _) rfl rfl rfl⟩

/-- C8: a registration record's non-conforming `easy_options` value is not
bound to the feature name but IS stored verbatim in the loaded record; with
such a stored value, `invoke_feature` dispatches through it and raises
`AttributeError` instead of calling the default run action. -/
theorem C8_raw_options_dispatch (name : String) (v : PyVal) (fm : FeatureManager)
    (rec : LoadedFeature) (oid : String) (params : Params)
    (h1 : lookupD fm.features name = some rec)
    (h2 : rec.easy_options = some (.raw v)) :
    bindEasyOptions name (some (.raw v)) = some (.raw v) ∧
    invoke_feature fm name (some oid) params =
      .error (.exn "AttributeError" "object has no attribute get_option_callable") := by
  refine ⟨rfl, ?_⟩
  simp only [invoke_feature, h1, h2]

/-- C8 counterexample: loading a feature whose registration supplies the
string `"bogus"` as `easy_options` stores that value in the record, and
invocation with an option id then raises `AttributeError` -- it is not
routed to the feature's default run action, which would have returned
`"<p>ran</p>"`. -/
theorem C8_counterexample :
    load_features DEFAULTS envRawEz [("alpha", [])] =
      .ok ⟨[("alpha", recRawEzLoaded)], 0, 1, 0⟩ ∧
    recRawEzLoaded.easy_options = some (.raw (.strV "bogus")) ∧
    invoke_feature fmRawEz "alpha" (some "x") [] =
      .error (.exn "AttributeError" "object has no attribute get_option_callable") ∧
    (instOk.run (dictAssign [] "debug" (.boolV false))).result = .ok (.strV "<p>ran</p>") ∧
    (Except.error (.exn "AttributeError" "object has no attribute get_option_callable") :
      Except Exn PyVal) ≠ .ok (.strV "<p>ran</p>") :=
  ⟨rfl, rfl, rfl, rfl, fun h => Except.noConfusion h⟩

/-- C8 witness: the dispatch theorem at the concretely loaded raw-options
feature. -/
theorem C8_witness :
    lookupD fmRawEz.features "alpha" = some recRawEzLoaded ∧
    (bindEasyOptions "alpha" (some (.raw (.strV "bogus"))) = some (.raw (.strV "bogus")) ∧
     invoke_feature fmRawEz "alpha" (some "x") [] =
       .error (.exn "AttributeError" "object has no attribute get_option_callable")) :=
  ⟨rfl, C8_raw_options_dispatch "alpha" (.strV "bogus") fmRawEz recRawEzLoaded "x" [] rfl rfl⟩

/-- C9: after any sequence of `add_option` calls on a fresh registry,
`get_option_callable(id)` returns the callable of the most recent call with
that id (later calls overwrite earlier ones without error), and invoking the
returned callable gives the registered function's result on any params. -/
theorem C9_option_roundtrip (message : String) (cs : List AddCall) (oid : String) (c : AddCall)
    (h : cs.reverse.find? (fun x => x.id == oid) = some c) :
    ∃ f, EasyOptions.get_option_callable (applyCalls (EasyOptions.init message) cs) oid =
      .ok f ∧ ∀ p, f p = c.cb p := by
  have hl := lookupD_applyCalls (EasyOptions.init message) cs oid
  rw [h] at hl
  simp at hl
  refine ⟨c.cb, ?_, fun p => rfl⟩
  unfold EasyOptions.get_option_callable
  rw [hl]

/-- C9 witness: two `add_option` calls with the same id; the lookup returns
the second callable. -/
theorem C9_witness :
    (([{ id := "x", label := "X", cb := actOkStr "first" },
       { id := "x", label := "X2", cb := actOkStr "second" }] : List AddCall).reverse.find?
        (fun x => x.id == "x") =
      some { id := "x", label := "X2", cb := actOkStr "second" }) ∧
    (∃ f, EasyOptions.get_option_callable
        (applyCalls (EasyOptions.init "m")
          [{ id := "x", label := "X", cb := actOkStr "first" },
           { id := "x", label := "X2", cb := actOkStr "second" }]) "x" = .ok f ∧
      ∀ p, f p = actOkStr "second" p) :=
  ⟨rfl, C9_option_roundtrip "m"
    [{ id := "x", label := "X", cb := actOkStr "first" },
     { id := "x", label := "X2", cb := actOkStr "second" }] "x"
    { id := "x", label := "X2", cb := actOkStr "second" } rfl⟩

/-- C10: whenever the load phase completes, the counters satisfy
`scanned = disabled + failed + loaded`, with `loaded` the size of the
loaded-feature table. -/
theorem C10_counter_balance (defaults : Params) (env : String → ModuleBehavior)
    (defs : List (String × Params)) (r : LoadResult)
    (hnd : (defs.map Prod.fst).Nodup)
    (h : load_features defaults env defs = .ok r) :
    r.scanned = r.disabled + r.failures + r.loaded.length :=
  (loadAux_counter_inv defaults env defs ⟨[], 0, 0, 0⟩ r hnd (fun _ _ => rfl) rfl h).1

/-- C10 witness: the counter theorem at a run with one disabled and one
failed feature. -/
theorem C10_witness :
    load_features DEFAULTS envAllMissing defsCounters = .ok ⟨[], 1, 2, 1⟩ ∧
    (2 : Nat) = 1 + 1 + ([] : List (String × LoadedFeature)).length :=
  ⟨rfl, C10_counter_balance DEFAULTS envAllMissing defsCounters ⟨[], 1, 2, 1⟩ (by decide) rfl⟩

end BS2
